import Mathlib

/-!
Verification of the IPU BMC provisioning controller (ipu.py).

The Python code is shallowly embedded: every network / SSH interaction is
modelled by the data the code observes from it (a "world"), and every
function of interest becomes a pure Lean function over that data.  Machine
integers are modelled by Int/Nat; fallible operations return Option.
-/

/-- A JSON value as far as the controller inspects one: it only ever looks
at booleans and strings coming back from the Redfish endpoints. -/
inductive JVal
  | jbool (b : Bool)
  | jstr (s : String)
  | jnum (n : Int)
  | jnull
deriving DecidableEq

/-- The fields of GET /redfish/v1/Systems/1/VirtualMedia/1 that
IPUBMC._virtual_media_is_inserted reads.  A field may be absent (None) or
hold a value of the wrong JSON type, exactly as data.get allows. -/
structure VMData where
  Inserted : Option JVal
  ImageName : Option JVal
deriving DecidableEq

/-- Embeds IPUBMC._virtual_media_is_inserted: true iff the response has
Inserted = true (a real boolean) and ImageName is a string equal to the
requested filename. -/
def virtual_media_is_inserted (data : VMData) (filename : String) : Bool :=
  match data.Inserted with
  | some (JVal.jbool true) =>
    match data.ImageName with
    | some (JVal.jstr image_name) => image_name == filename
    | _ => false
  | _ => false

/-- Outcome of the media wait loop: normal return, or the RuntimeError
raised when the 3600s deadline passes. -/
inductive WaitResult
  | success
  | timeout
deriving DecidableEq

/-- Embeds the loop of IPUBMC._wait_iso_downloaded under an ideal clock in
which only the 10s sleeps advance time.  `poll k` is the VirtualMedia
response observed at the k-th check and `sizes k` the du-reported size of
/mnt/imc/acc-os.iso at that moment (None when du fails, read as 0 by the
progress logger).  `fuel` counts the sleeps still allowed before the
3600s deadline: the loop checks the Inserted state, and on failure sleeps;
when the deadline is reached right after a sleep it raises the timeout
before logging again.  The first component records the values logged by
log_progress (downloaded bytes, expected bytes), emitted on the checks
whose loop_count is a multiple of 6 (every ~60s). -/
def wait_iso_loop (poll : Nat → VMData) (sizes : Nat → Option Int) (expected : Int) (filename : String) : Nat → Nat → List (Int × Int) × WaitResult
  | 0, k =>
    if virtual_media_is_inserted (poll k) filename then ([], WaitResult.success)
    else ([], WaitResult.timeout)
  | fuel + 1, k =>
    if virtual_media_is_inserted (poll k) filename then ([], WaitResult.success)
    else
      let logs := if k % 6 = 0 then [((sizes k).getD 0, expected)] else []
      let rest := wait_iso_loop poll sizes expected filename fuel (k + 1)
      (logs ++ rest.1, rest.2)

/-- Embeds IPUBMC._wait_iso_downloaded: deadline time.monotonic() + 3600
with a 10s sleep per failed check allows checks k = 0 .. 359 (the 360th
sleep reaches the deadline), so the loop starts with 359 sleeps of fuel. -/
def wait_iso_downloaded (poll : Nat → VMData) (sizes : Nat → Option Int) (expected : Int) (filename : String) : List (Int × Int) × WaitResult :=
  wait_iso_loop poll sizes expected filename 359 0

/-- Accumulates decimal digits; any non-digit character fails the parse,
as int() does in the source language. -/
def digits_to_nat (acc : Nat) : List Char → Option Nat
  | [] => some acc
  | c :: cs => if c.isDigit then digits_to_nat (10 * acc + (c.toNat - 48)) cs else none

/-- Parses a non-empty run of decimal digits. -/
def parse_digits (cs : List Char) : Option Nat :=
  match cs with
  | [] => none
  | _ => digits_to_nat 0 cs

/-- Embeds int(s) on a string: surrounding whitespace is ignored, an
optional single sign is allowed, and at least one digit is required;
anything else raises ValueError, modelled as None. -/
def python_int (s : String) : Option Int :=
  let t := ((s.data.dropWhile Char.isWhitespace).reverse.dropWhile Char.isWhitespace).reverse
  match t with
  | [] => none
  | c :: cs =>
    if c = '-' then (parse_digits cs).map (fun n => -(n : Int))
    else if c = '+' then (parse_digits cs).map (fun n => (n : Int))
    else (parse_digits t).map (fun n => (n : Int))

/-- The first whitespace-separated token of a string, as out.split()[0]
reads it; None models the IndexError on an all-whitespace string. -/
def first_split_token (out : String) : Option String :=
  match out.data.dropWhile Char.isWhitespace with
  | [] => none
  | rest => some (String.mk (rest.takeWhile (fun c => !c.isWhitespace)))

/-- Embeds IPUBMC._get_file_size: runs du -b on the IMC.  `runFailed`
models the run call itself raising (caught, None); a non-zero exit code
gives None; the first whitespace token of stdout must parse as an integer
(IndexError / ValueError are caught, None); a negative value gives None. -/
def get_file_size (runFailed : Bool) (returncode : Int) (out : String) : Option Int :=
  if runFailed then none
  else if returncode ≠ 0 then none
  else
    match first_split_token out with
    | none => none
    | some tok =>
      match python_int tok with
      | none => none
      | some v => if v < 0 then none else some v

/-- Embeds url_get_size: `contentLength` is the Content-Length header of
the HEAD response, None covering both an absent header and the request
raising (both caught, returning None); the header must parse as an
integer after stripping, and a negative value gives None. -/
def url_get_size (contentLength : Option String) : Option Int :=
  match contentLength with
  | none => none
  | some s =>
    match python_int s with
    | none => none
    | some v => if v < 0 then none else some v

/-- Substring containment, as the `in` operator tests it on strings:
the needle occurs contiguously somewhere in the haystack. -/
def containsSubstr (hay needle : String) : Bool :=
  (List.range (hay.data.length + 1)).any (fun i => needle.data.isPrefixOf (hay.data.drop i))

/-- Outcome of one authenticated requests.get with raise_for_status, as
seen by IPUBMC._redfish_available: success, a RequestException (covering
connection, TLS, auth and HTTP-status failures), or a JSONDecodeError. -/
inductive ReqOutcome
  | ok
  | requestError
  | jsonError
deriving DecidableEq

/-- Embeds IPUBMC._redfish_available: the GET against
/redfish/v1/Systems/1 either succeeds (True) or raises one of the two
caught exception classes (False); the function never raises. -/
def redfish_available (o : ReqOutcome) : Bool :=
  match o with
  | ReqOutcome.ok => true
  | ReqOutcome.requestError => false
  | ReqOutcome.jsonError => false

/-- The remote data a single IPUBMC endpoint exposes to the version and
identity probes.  `probe` is the outcome of the reachability GET;
`redfishVersion` is the value IPUBMC._redfish_version extracts from the
Managers/1 FirmwareVersion banner (None when that fatal-exits);
`redfishName` is the Name field of GET /redfish/v1/ (None when absent,
which fatal-exits inside _redfish_name); `sshVersion` is the return of
IPUBMC._version_via_ssh (None when ssh fails or the banner has no
Version token). -/
structure BmcWorld where
  probe : ReqOutcome
  redfishVersion : Option String
  redfishName : Option String
  sshVersion : Option String
deriving DecidableEq

/-- Embeds IPUBMC.version: the Redfish-derived value when the
reachability probe succeeds, otherwise the SSH-derived banner value;
a falsy SSH value (None or the empty string) raises RuntimeError,
modelled as None. -/
def version (w : BmcWorld) : Option String :=
  if redfish_available w.probe then w.redfishVersion
  else
    match w.sshVersion with
    | some v => if v = "" then none else some v
    | none => none

/-- Embeds IPUBMC.is_ipu: over Redfish, the Name of the service root must
contain the marker, with a missing Name fatal-exiting (None); without
Redfish, falls back to whether the SSH version probe succeeded at all. -/
def is_ipu (w : BmcWorld) : Option Bool :=
  if redfish_available w.probe then
    match w.redfishName with
    | some name => some (containsSubstr name "Intel IPU")
    | none => none
  else
    some w.sshVersion.isSome

/-- What IPUBMC.__init__ stores from a BmcConfig. -/
structure IPUBMCState where
  url : String
  user : String
  password : String
deriving DecidableEq

/-- Embeds IPUBMC.__init__: the configured password is rewritten to a
tripled form when it is exactly the single word, otherwise kept. -/
def ipubmc_init (url user configured_password : String) : IPUBMCState :=
  if configured_password = "calvin" then
    { url := url, user := user, password := "calvincalvincalvin" }
  else
    { url := url, user := user, password := configured_password }

/-- The basic-auth pair every _requests_get / _requests_post /
_requests_patch call sends, and the SSH credential pair used by
ensure_firmware: always the stored user and stored password. -/
def request_auth (s : IPUBMCState) : String × String :=
  (s.user, s.password)

/-- The observable actions boot_iso_with_redfish (and its caller
IPUClusterNode._boot_iso) performs, in order.  accWait carries the
timeout budget passed to _wait_for_acc_with_retry. -/
inductive Event
  | prepareImc
  | restartRedfish
  | cleanupIso
  | insertMedia
  | writeMarker
  | overrideCd
  | rebootPost
  | overrideDisabled
  | accWait (budget : Int)
deriving DecidableEq

/-- The error that terminates a boot_iso_with_redfish run early.
sizeUnknown is the RuntimeError raised when url_get_size returns None;
prepareFailed / restartFailed / restart2Failed are SSH exceptions raised
inside _prepare_imc and the two _restart_redfish calls; insertTimeout is
the RuntimeError raised by _wait_iso_downloaded. -/
inductive BootErr
  | sizeUnknown
  | prepareFailed
  | restartFailed
  | insertTimeout
  | restart2Failed
deriving DecidableEq

/-- The environment one boot_iso_with_redfish call runs against.
`contentLength` feeds url_get_size; `prepareOk` / `restart1Ok` /
`restart2Ok` say whether the SSH work in _prepare_imc and the two
_restart_redfish calls completes without raising; `markerContents` is
what read_file returns for /work/url (None when the read raises);
`duFailed` / `duReturncode` / `duOut` feed _get_file_size for
/mnt/imc/acc-os.iso; `insertWaitResult` is the outcome of the
_wait_iso_downloaded poll loop driven by the VirtualMedia responses
(success, or the timeout RuntimeError). -/
structure BootWorld where
  contentLength : Option String
  prepareOk : Bool
  restart1Ok : Bool
  markerContents : Option String
  duFailed : Bool
  duReturncode : Int
  duOut : String
  insertWaitResult : WaitResult
  restart2Ok : Bool
deriving DecidableEq

/-- Embeds the matching_url closure: the recorded marker file must read
back exactly as the requested URL; a failed read counts as a mismatch. -/
def matching_url (markerContents : Option String) (iso_path : String) : Bool :=
  markerContents == some iso_path

/-- Embeds the same_size closure: the du size of /mnt/imc/acc-os.iso must
exist and equal the expected size. -/
def same_size (w : BootWorld) (expected : Int) : Bool :=
  match get_file_size w.duFailed w.duReturncode w.duOut with
  | none => false
  | some fs => expected == fs

/-- The common tail of boot_iso_with_redfish after the insert-or-skip
decision: write the URL marker, PATCH the one-shot Cd boot-source
override, POST the Manager reset, sleep five minutes, restart Redfish
over SSH (which may raise, aborting the call with the override still
set), and only then PATCH the override back to Disabled. -/
def boot_finish (restart2Ok : Bool) (evs : List Event) : List Event × Option BootErr :=
  let evs2 := evs ++ [Event.writeMarker, Event.overrideCd, Event.rebootPost]
  if restart2Ok = false then (evs2, some BootErr.restart2Failed)
  else (evs2 ++ [Event.restartRedfish, Event.overrideDisabled], none)

/-- Embeds IPUBMC.boot_iso_with_redfish as the list of actions performed
before returning or raising, paired with the error raised (None on a
normal return). -/
def boot_iso_with_redfish (w : BootWorld) (iso_path : String) : List Event × Option BootErr :=
  match url_get_size w.contentLength with
  | none => ([], some BootErr.sizeUnknown)
  | some expected =>
    if w.prepareOk = false then ([], some BootErr.prepareFailed)
    else if w.restart1Ok = false then ([Event.prepareImc], some BootErr.restartFailed)
    else if matching_url w.markerContents iso_path && same_size w expected then
      boot_finish w.restart2Ok [Event.prepareImc, Event.restartRedfish]
    else if w.insertWaitResult = WaitResult.timeout then
      ([Event.prepareImc, Event.restartRedfish, Event.cleanupIso, Event.insertMedia], some BootErr.insertTimeout)
    else
      boot_finish w.restart2Ok [Event.prepareImc, Event.restartRedfish, Event.cleanupIso, Event.insertMedia]

/-- Embeds IPUClusterNode._boot_iso: run boot_iso_with_redfish to
completion (errors propagate), then wait for the ACC with the default
1200s budget. -/
def boot_iso_node (w : BootWorld) (iso_path : String) : List Event × Option BootErr :=
  match boot_iso_with_redfish w iso_path with
  | (evs, none) => (evs ++ [Event.accWait 1200], none)
  | (evs, some e) => (evs, some e)

/-- Terminal outcome of IPUClusterNode._wait_for_acc_with_retry, carrying
the number of countdown expiries (failures) and of IMC console reboots
issued along the way.  connected is the normal return after a ping
succeeds; failed is logger.error_and_exit after too many failures. -/
inductive AccResult
  | connected (failures reboots : Nat)
  | failed (failures reboots : Nat)
deriving DecidableEq

/-- Embeds the while-True loop of _wait_for_acc_with_retry.  `ping n` is
the result of the n-th ping attempt; each failed attempt sleeps 20s and
decrements the countdown by 20; on expiry the failure counter increments
and, when it reaches 5, the loop fatal-exits before issuing a reboot,
otherwise it reboots the IMC over SSH and resets the countdown to 240.
`fuel` only bounds the unrolling of the unbounded source loop; None
means the loop is still running after `fuel` attempts. -/
def wait_for_acc_loop (ping : Nat → Bool) : Nat → Int → Nat → Nat → Nat → Option AccResult
  | 0, _, _, _, _ => none
  | fuel + 1, t, failures, reboots, n =>
    if ping n then some (AccResult.connected failures reboots)
    else
      let t2 := t - 20
      if t2 ≤ 0 then
        if failures + 1 = 5 then some (AccResult.failed (failures + 1) reboots)
        else wait_for_acc_loop ping fuel 240 (failures + 1) (reboots + 1) (n + 1)
      else wait_for_acc_loop ping fuel t2 failures reboots (n + 1)

/-- Embeds _wait_for_acc_with_retry with its countdown argument (1200 by
default, 300 from post_boot), unrolled far enough to cover the longest
possible never-ping run (60 + 4 * 12 = 108 attempts). -/
def wait_for_acc_with_retry (ping : Nat → Bool) (timeout : Int) : Option AccResult :=
  wait_for_acc_loop ping 200 timeout 0 0 0

/-- The flash-path actions of IPUBMC.ensure_firmware. -/
inductive FwEvent
  | flash
  | coldBoot
deriving DecidableEq

/-- How an ensure_firmware call ends: skip (version already matches and
not forced), a completed upgrade, the AssertionError of `assert
self.is_ipu()` (or of cold_boot when no host BMC is attached), or a
logger.error_and_exit (missing Name, flash failure, post-flash version
mismatch). -/
inductive FwOutcome
  | skipped
  | upgraded
  | assertFailed
  | fatalExit
deriving DecidableEq

/-- The environment of one ensure_firmware call: the BMC probe data that
is_ipu consults, the /etc/issue.net banner before and after the flash,
whether the containerized flash command succeeds, and whether a host BMC
was attached (cold_boot asserts it is). -/
structure FirmwareWorld where
  bmc : BmcWorld
  banner : String
  flashOk : Bool
  hostBmcPresent : Bool
  bannerAfter : String
deriving DecidableEq

/-- Embeds the firmware_is_same closure: the target version string is an
substring of the cat /etc/issue.net output. -/
def firmware_is_same (banner target : String) : Bool :=
  containsSubstr banner target

/-- Embeds IPUBMC.ensure_firmware as the flash actions performed and the
outcome.  The is_ipu assertion runs first; then the skip check (skipped
unless forced or the banner differs); then the flash, the cold boot and
the post-flash re-check. -/
def ensure_firmware (w : FirmwareWorld) (force : Bool) (target : String) : List FwEvent × FwOutcome :=
  match is_ipu w.bmc with
  | none => ([], FwOutcome.fatalExit)
  | some false => ([], FwOutcome.assertFailed)
  | some true =>
    if force || !(firmware_is_same w.banner target) then
      if w.flashOk = false then ([FwEvent.flash], FwOutcome.fatalExit)
      else if w.hostBmcPresent = false then ([FwEvent.flash], FwOutcome.assertFailed)
      else if firmware_is_same w.bannerAfter target then ([FwEvent.flash, FwEvent.coldBoot], FwOutcome.upgraded)
      else ([FwEvent.flash, FwEvent.coldBoot], FwOutcome.fatalExit)
    else ([], FwOutcome.skipped)

/-- The action list of a successful boot_iso_with_redfish run that kept
the existing media. -/
def trace_skip : List Event :=
  [Event.prepareImc, Event.restartRedfish, Event.writeMarker, Event.overrideCd,
   Event.rebootPost, Event.restartRedfish, Event.overrideDisabled]

/-- The action list of a successful boot_iso_with_redfish run that
cleaned up and reinserted the media. -/
def trace_insert : List Event :=
  [Event.prepareImc, Event.restartRedfish, Event.cleanupIso, Event.insertMedia,
   Event.writeMarker, Event.overrideCd, Event.rebootPost, Event.restartRedfish,
   Event.overrideDisabled]

/-- A boot environment in which every step succeeds and no previous
download exists, driving the full reinsertion path. -/
def bootEnvOk : BootWorld :=
  { contentLength := some "9000", prepareOk := true, restart1Ok := true,
    markerContents := none, duFailed := true, duReturncode := 0, duOut := "",
    insertWaitResult := WaitResult.success, restart2Ok := true }

/-- The same environment except that the post-reboot Redfish restart
raises, aborting the call after the Cd override was enabled. -/
def bootEnvRestartFail : BootWorld :=
  { bootEnvOk with restart2Ok := false }

/-- A successful boot_iso_with_redfish run follows one of exactly two
action traces: the skip-reinsertion one or the full-reinsertion one. -/
theorem boot_success_trace (w : BootWorld) (iso_path : String)
    (h : (boot_iso_with_redfish w iso_path).2 = none) :
    (boot_iso_with_redfish w iso_path).1 = trace_skip ∨
    (boot_iso_with_redfish w iso_path).1 = trace_insert := by
  cases hu : url_get_size w.contentLength with
  | none => simp [boot_iso_with_redfish, hu] at h
  | some expected =>
    cases hp : w.prepareOk with
    | false => simp [boot_iso_with_redfish, hu, hp] at h
    | true =>
      cases hr1 : w.restart1Ok with
      | false => simp [boot_iso_with_redfish, hu, hp, hr1] at h
      | true =>
        by_cases hm : (matching_url w.markerContents iso_path && same_size w expected) = true
        · cases hr2 : w.restart2Ok with
          | false => simp [boot_iso_with_redfish, boot_finish, hu, hp, hr1, hm, hr2] at h
          | true =>
            left
            simp [boot_iso_with_redfish, boot_finish, hu, hp, hr1, hm, hr2, trace_skip]
        · cases hw : w.insertWaitResult with
          | timeout => simp [boot_iso_with_redfish, hu, hp, hr1, hm, hw] at h
          | success =>
            cases hr2 : w.restart2Ok with
            | false => simp [boot_iso_with_redfish, boot_finish, hu, hp, hr1, hm, hw, hr2] at h
            | true =>
              right
              simp [boot_iso_with_redfish, boot_finish, hu, hp, hr1, hm, hw, hr2, trace_insert]

/-- Claim C5: version returns the SSH-derived banner value when the
reachability probe reports the Redfish channel unreachable and the
Redfish-derived value otherwise, and the reachability probe maps every
failure outcome to false without raising. -/
theorem version_channel_priority (w : BmcWorld) :
    (redfish_available w.probe = true → version w = w.redfishVersion) ∧
    (∀ v : String, redfish_available w.probe = false → w.sshVersion = some v → v ≠ "" →
      version w = some v) ∧
    (∀ o : ReqOutcome, o ≠ ReqOutcome.ok → redfish_available o = false) := by
  refine ⟨?_, ?_, ?_⟩
  · intro h
    simp [version, h]
  · intro v h hv hne
    simp [version, h, hv, hne]
  · intro o ho
    cases o with
    | ok => exact absurd rfl ho
    | requestError => rfl
    | jsonError => rfl

/-- Witness for C5: with the probe raising a RequestException and the
SSH banner reading 1.8.0, version returns the SSH value even though a
Redfish value exists, and the probe reports false. -/
theorem version_channel_priority_witness :
    version { probe := ReqOutcome.requestError, redfishVersion := some "9.9.9",
              redfishName := none, sshVersion := some "1.8.0" } = some "1.8.0" ∧
    redfish_available ReqOutcome.requestError = false := by
  constructor
  · exact (version_channel_priority _).2.1 "1.8.0" rfl rfl (by decide)
  · exact (version_channel_priority
      { probe := ReqOutcome.requestError, redfishVersion := some "9.9.9",
        redfishName := none, sshVersion := some "1.8.0" }).2.2 ReqOutcome.requestError (by decide)

/-- Claim C6: without a usable Content-Length from the HEAD request, the
boot operation raises the size-unknown error with an empty action trace,
so zero InsertMedia actions occur. -/
theorem boot_size_unknown_fails_fast (w : BootWorld) (iso_path : String)
    (h : url_get_size w.contentLength = none) :
    boot_iso_with_redfish w iso_path = ([], some BootErr.sizeUnknown) ∧
    List.count Event.insertMedia (boot_iso_with_redfish w iso_path).1 = 0 := by
  have h1 : boot_iso_with_redfish w iso_path = ([], some BootErr.sizeUnknown) := by
    simp [boot_iso_with_redfish, h]
  exact ⟨h1, by rw [h1]; rfl⟩

/-- Witness for C6: a HEAD response with no Content-Length header at all
aborts the boot before any InsertMedia action. -/
theorem boot_size_unknown_fails_fast_witness :
    boot_iso_with_redfish { bootEnvOk with contentLength := none } "http://h/x.iso" =
      ([], some BootErr.sizeUnknown) ∧
    List.count Event.insertMedia
      (boot_iso_with_redfish { bootEnvOk with contentLength := none } "http://h/x.iso").1 = 0 :=
  boot_size_unknown_fails_fast _ _ (by decide)

/-- Claim C8: when the current firmware banner contains the target
version as a substring, ensure_firmware with force = false skips: no
flash action is performed.  The match is containsSubstr, plain substring
containment, not a structural version comparison. -/
theorem ensure_firmware_skips_on_substring_match (w : FirmwareWorld) (target : String)
    (hi : is_ipu w.bmc = some true)
    (hs : firmware_is_same w.banner target = true) :
    ensure_firmware w false target = ([], FwOutcome.skipped) ∧
    List.count FwEvent.flash (ensure_firmware w false target).1 = 0 := by
  have h1 : ensure_firmware w false target = ([], FwOutcome.skipped) := by
    simp [ensure_firmware, hi, hs]
  exact ⟨h1, by rw [h1]; rfl⟩

/-- Witness for C8: current banner 2.5.0.117 against target 2.5.0 with
force = false performs no flash action. -/
theorem ensure_firmware_skips_on_substring_match_witness :
    ensure_firmware
      { bmc := { probe := ReqOutcome.ok, redfishVersion := none,
                 redfishName := some "Intel IPU Adapter", sshVersion := none },
        banner := "2.5.0.117", flashOk := true, hostBmcPresent := true,
        bannerAfter := "2.5.0.117" } false "2.5.0" = ([], FwOutcome.skipped) :=
  (ensure_firmware_skips_on_substring_match _ _ (by decide) (by decide)).1

/-- Claim C9: when the card-identity classification is false, the
firmware upgrade fails on the identity assertion with an empty flash
trace: the flash path is unreachable. -/
theorem ensure_firmware_requires_ipu (w : FirmwareWorld) (force : Bool) (target : String)
    (hi : is_ipu w.bmc = some false) :
    ensure_firmware w force target = ([], FwOutcome.assertFailed) ∧
    List.count FwEvent.flash (ensure_firmware w force target).1 = 0 := by
  have h1 : ensure_firmware w force target = ([], FwOutcome.assertFailed) := by
    simp [ensure_firmware, hi]
  exact ⟨h1, by rw [h1]; rfl⟩

/-- Witness for C9: an endpoint with no Redfish channel and no SSH
version banner classifies as not an IPU, and ensure_firmware fails the
assertion before any flash action even when forced. -/
theorem ensure_firmware_requires_ipu_witness :
    ensure_firmware
      { bmc := { probe := ReqOutcome.requestError, redfishVersion := none,
                 redfishName := none, sshVersion := none },
        banner := "1.0.0", flashOk := true, hostBmcPresent := true,
        bannerAfter := "2.5.0" } true "2.5.0" = ([], FwOutcome.assertFailed) :=
  (ensure_firmware_requires_ipu _ true _ (by decide)).1

/-- Claim C10: constructing the BMC client rewrites the exact password
calvin to calvincalvincalvin and keeps any other password unchanged; the
stored value is what every request and SSH authentication then uses. -/
theorem ipubmc_password_rewrite (url user p : String) :
    (p = "calvin" → request_auth (ipubmc_init url user p) = (user, "calvincalvincalvin")) ∧
    (p ≠ "calvin" → request_auth (ipubmc_init url user p) = (user, p)) := by
  constructor
  · intro h
    simp [ipubmc_init, request_auth, h]
  · intro h
    simp [ipubmc_init, request_auth, h]

/-- Witness for C10 at two concrete passwords: calvin is tripled, any
other value is kept as configured. -/
theorem ipubmc_password_rewrite_witness :
    request_auth (ipubmc_init "192.168.0.1" "root" "calvin") = ("root", "calvincalvincalvin") ∧
    request_auth (ipubmc_init "192.168.0.1" "root" "redhat") = ("root", "redhat") :=
  ⟨(ipubmc_password_rewrite "192.168.0.1" "root" "calvin").1 rfl,
   (ipubmc_password_rewrite "192.168.0.1" "root" "redhat").2 (by decide)⟩

/-- Claim C7: once the expected size is resolved and the IMC preparation
and Redfish restart complete, a matching URL marker together with a
matching byte size skips insertion entirely (zero cleanup, zero
InsertMedia), and any mismatch deletes the stale copy and issues exactly
one InsertMedia, the cleanup immediately preceding it. -/
theorem boot_insert_skip_or_exactly_once (w : BootWorld) (iso_path : String) (expected : Int)
    (hu : url_get_size w.contentLength = some expected)
    (hp : w.prepareOk = true) (hr : w.restart1Ok = true) :
    ((matching_url w.markerContents iso_path && same_size w expected) = true →
      List.count Event.insertMedia (boot_iso_with_redfish w iso_path).1 = 0 ∧
      List.count Event.cleanupIso (boot_iso_with_redfish w iso_path).1 = 0) ∧
    ((matching_url w.markerContents iso_path && same_size w expected) = false →
      List.count Event.insertMedia (boot_iso_with_redfish w iso_path).1 = 1 ∧
      List.count Event.cleanupIso (boot_iso_with_redfish w iso_path).1 = 1 ∧
      ∃ pre suf, (boot_iso_with_redfish w iso_path).1 =
        pre ++ [Event.cleanupIso, Event.insertMedia] ++ suf) := by
  constructor
  · intro hm
    have h1 : boot_iso_with_redfish w iso_path =
        boot_finish w.restart2Ok [Event.prepareImc, Event.restartRedfish] := by
      simp [boot_iso_with_redfish, hu, hp, hr, hm]
    rw [h1]
    cases h2 : w.restart2Ok with
    | false => exact ⟨by simp [boot_finish], by simp [boot_finish]⟩
    | true => exact ⟨by simp [boot_finish], by simp [boot_finish]⟩
  · intro hm
    have hm2 : ¬ ((matching_url w.markerContents iso_path && same_size w expected) = true) := by
      simp [hm]
    cases hw : w.insertWaitResult with
    | timeout =>
      have h1 : boot_iso_with_redfish w iso_path =
          ([Event.prepareImc, Event.restartRedfish, Event.cleanupIso, Event.insertMedia],
           some BootErr.insertTimeout) := by
        simp [boot_iso_with_redfish, hu, hp, hr, hm2, hw]
      rw [h1]
      exact ⟨by rfl, by rfl, [Event.prepareImc, Event.restartRedfish], [], by rfl⟩
    | success =>
      have h1 : boot_iso_with_redfish w iso_path =
          boot_finish w.restart2Ok
            [Event.prepareImc, Event.restartRedfish, Event.cleanupIso, Event.insertMedia] := by
        simp [boot_iso_with_redfish, hu, hp, hr, hm2, hw]
      rw [h1]
      cases h2 : w.restart2Ok with
      | false =>
        exact ⟨by simp [boot_finish], by simp [boot_finish],
          [Event.prepareImc, Event.restartRedfish],
          [Event.writeMarker, Event.overrideCd, Event.rebootPost], by simp [boot_finish]⟩
      | true =>
        exact ⟨by simp [boot_finish], by simp [boot_finish],
          [Event.prepareImc, Event.restartRedfish],
          [Event.writeMarker, Event.overrideCd, Event.rebootPost,
           Event.restartRedfish, Event.overrideDisabled], by simp [boot_finish]⟩

/-- Witness for C7: with no URL marker recorded, the boot run cleans up
and inserts exactly once. -/
theorem boot_insert_skip_or_exactly_once_witness :
    List.count Event.insertMedia (boot_iso_with_redfish bootEnvOk "http://h/x.iso").1 = 1 ∧
    List.count Event.cleanupIso (boot_iso_with_redfish bootEnvOk "http://h/x.iso").1 = 1 := by
  have h := (boot_insert_skip_or_exactly_once bootEnvOk "http://h/x.iso" 9000
    (by decide) rfl rfl).2 (by decide)
  exact ⟨h.1, h.2.1⟩

/-- Claim C2 (amended): on every run of boot_iso_with_redfish that
completes without error, the PATCH enabling the one-shot Cd override is
paired with exactly one PATCH disabling it; there is however no
try/finally, so a failure between the two (an SSH exception in the
post-reboot Redfish restart) propagates with the override still set. -/
theorem boot_override_paired_on_success (w : BootWorld) (iso_path : String)
    (h : (boot_iso_with_redfish w iso_path).2 = none) :
    List.count Event.overrideCd (boot_iso_with_redfish w iso_path).1 = 1 ∧
    List.count Event.overrideDisabled (boot_iso_with_redfish w iso_path).1 = 1 := by
  rcases boot_success_trace w iso_path h with h1 | h1 <;> rw [h1] <;>
    exact ⟨by decide, by decide⟩

/-- Witness for C2 at a concrete successful environment: the enable and
disable PATCHes each occur exactly once. -/
theorem boot_override_paired_on_success_witness :
    List.count Event.overrideCd (boot_iso_with_redfish bootEnvOk "http://h/x.iso").1 = 1 ∧
    List.count Event.overrideDisabled (boot_iso_with_redfish bootEnvOk "http://h/x.iso").1 = 1 :=
  boot_override_paired_on_success bootEnvOk "http://h/x.iso" (by decide)

/-- Counterexample to claim C2 as stated: when the post-reboot Redfish
restart raises, the call propagates an error after enabling the Cd
override without ever issuing the disabling PATCH, so enable and
disable are not paired on this failure path. -/
theorem boot_override_not_cleared_on_restart_failure :
    (boot_iso_with_redfish bootEnvRestartFail "http://h/x.iso").2 = some BootErr.restart2Failed ∧
    List.count Event.overrideCd (boot_iso_with_redfish bootEnvRestartFail "http://h/x.iso").1 = 1 ∧
    List.count Event.overrideDisabled
      (boot_iso_with_redfish bootEnvRestartFail "http://h/x.iso").1 = 0 := by
  refine ⟨by decide, by decide, by decide⟩

/-- Claim C4 (amended): a successful install boot performs, after the
insert-or-skip step, the marker write, the Cd override enable, the
reset, the Redfish restart and the override disable, and only after
clearing the override does it run the ACC liveness wait with the 1200s
budget. -/
theorem boot_iso_node_clears_override_before_acc_wait (w : BootWorld) (iso_path : String)
    (h : (boot_iso_node w iso_path).2 = none) :
    ∃ pre, (boot_iso_node w iso_path).1 =
      pre ++ [Event.writeMarker, Event.overrideCd, Event.rebootPost,
              Event.restartRedfish, Event.overrideDisabled, Event.accWait 1200] := by
  rcases hb : boot_iso_with_redfish w iso_path with ⟨evs, err⟩
  cases err with
  | some e =>
    exfalso
    unfold boot_iso_node at h
    rw [hb] at h
    simp at h
  | none =>
    have h2 : (boot_iso_with_redfish w iso_path).2 = none := by rw [hb]
    have h1 := boot_success_trace w iso_path h2
    rw [hb] at h1
    have h3 : (boot_iso_node w iso_path).1 = evs ++ [Event.accWait 1200] := by
      unfold boot_iso_node
      rw [hb]
    rw [h3]
    simp only [] at h1
    rcases h1 with h1 | h1 <;> rw [h1]
    · exact ⟨[Event.prepareImc, Event.restartRedfish], by decide⟩
    · exact ⟨[Event.prepareImc, Event.restartRedfish, Event.cleanupIso, Event.insertMedia],
        by decide⟩

/-- Witness for C4 at a concrete successful environment: the success
trace ends with the override disable followed by the liveness wait. -/
theorem boot_iso_node_clears_override_before_acc_wait_witness :
    ∃ pre, (boot_iso_node bootEnvOk "http://h/x.iso").1 =
      pre ++ [Event.writeMarker, Event.overrideCd, Event.rebootPost,
              Event.restartRedfish, Event.overrideDisabled, Event.accWait 1200] :=
  boot_iso_node_clears_override_before_acc_wait bootEnvOk "http://h/x.iso" (by decide)

/-- Counterexample to claim C4 as stated: on a concrete successful
install run the boot-source override is cleared before the ACC liveness
wait starts, not after it, so the claimed order (liveness wait, only
then clear) does not hold. -/
theorem boot_iso_node_order_refuted :
    (boot_iso_node bootEnvOk "http://h/x.iso").2 = none ∧
    ¬ (List.indexOf (Event.accWait 1200) (boot_iso_node bootEnvOk "http://h/x.iso").1 <
       List.indexOf Event.overrideDisabled (boot_iso_node bootEnvOk "http://h/x.iso").1) := by
  refine ⟨by decide, by decide⟩

/-- Claim C3 (amended): when the liveness poll never succeeds, the
monitor run with the default 1200s budget reaches the terminal failure
exit after exactly 5 countdown expiries, but issues only 4 console
reboots, because the fifth expiry fatal-exits before the reboot step;
the countdown is reset to 240s after each of the first 4 escalations. -/
theorem wait_for_acc_five_expiries_four_reboots (ping : Nat → Bool)
    (h : ∀ n, ping n = false) :
    wait_for_acc_with_retry ping 1200 = some (AccResult.failed 5 4) := by
  have hp : ping = fun _ => false := funext h
  subst hp
  decide

/-- Witness for C3: the never-succeeding poll drives the monitor to the
terminal failure with 5 expiries and 4 reboots. -/
theorem wait_for_acc_five_expiries_four_reboots_witness :
    wait_for_acc_with_retry (fun _ => false) 1200 = some (AccResult.failed 5 4) :=
  wait_for_acc_five_expiries_four_reboots (fun _ => false) (fun _ => rfl)

/-- Counterexample to claim C3 as stated: with a never-succeeding poll
the run records 4 console reboots at its terminal failure, so the
claimed count of exactly 5 reboots is false. -/
theorem wait_for_acc_reboot_count_refuted :
    wait_for_acc_with_retry (fun _ => false) 1200 = some (AccResult.failed 5 4) ∧
    wait_for_acc_with_retry (fun _ => false) 1200 ≠ some (AccResult.failed 5 5) := by
  refine ⟨by decide, by decide⟩

/-- The media wait loop returns success exactly when some check between
its starting index and its fuel horizon sees the Inserted state. -/
theorem wait_iso_loop_success_iff (poll : Nat → VMData) (sizes : Nat → Option Int)
    (expected : Int) (filename : String) :
    ∀ fuel k, (wait_iso_loop poll sizes expected filename fuel k).2 = WaitResult.success ↔
      ∃ j, k ≤ j ∧ j ≤ k + fuel ∧ virtual_media_is_inserted (poll j) filename = true := by
  intro fuel
  induction fuel with
  | zero =>
    intro k
    constructor
    · intro hs
      by_cases hins : virtual_media_is_inserted (poll k) filename = true
      · exact ⟨k, Nat.le_refl k, by omega, hins⟩
      · exfalso
        unfold wait_iso_loop at hs
        rw [if_neg hins] at hs
        cases hs
    · rintro ⟨j, hkj, hjk, hins⟩
      have hj : j = k := by omega
      subst hj
      unfold wait_iso_loop
      rw [if_pos hins]
  | succ fuel ih =>
    intro k
    by_cases hins : virtual_media_is_inserted (poll k) filename = true
    · constructor
      · intro _
        exact ⟨k, Nat.le_refl k, by omega, hins⟩
      · intro _
        unfold wait_iso_loop
        rw [if_pos hins]
    · have hred : (wait_iso_loop poll sizes expected filename (fuel + 1) k).2 =
          (wait_iso_loop poll sizes expected filename fuel (k + 1)).2 := by
        conv_lhs => rw [wait_iso_loop]
        rw [if_neg hins]
      rw [hred, ih (k + 1)]
      constructor
      · rintro ⟨j, h1, h2, h3⟩
        exact ⟨j, by omega, by omega, h3⟩
      · rintro ⟨j, h1, h2, h3⟩
        have hjk : j ≠ k := by
          intro he
          subst he
          exact hins h3
        exact ⟨j, by omega, by omega, h3⟩

/-- Claim C1 (amended): the media wait loop terminates with success
exactly when some poll within the 3600s deadline (checks every 10s, at
most 360 of them) reports the protocol Inserted flag true with a
matching ImageName, and raises the timeout error exactly when no poll
within the deadline does; the downloaded file size is only logged and
never decides termination. -/
theorem wait_iso_downloaded_success_iff_inserted (poll : Nat → VMData)
    (sizes : Nat → Option Int) (expected : Int) (filename : String) :
    ((wait_iso_downloaded poll sizes expected filename).2 = WaitResult.success ↔
      ∃ k, k ≤ 359 ∧ virtual_media_is_inserted (poll k) filename = true) ∧
    ((wait_iso_downloaded poll sizes expected filename).2 = WaitResult.timeout ↔
      ∀ k, k ≤ 359 → virtual_media_is_inserted (poll k) filename = false) := by
  have hsucc : (wait_iso_downloaded poll sizes expected filename).2 = WaitResult.success ↔
      ∃ k, k ≤ 359 ∧ virtual_media_is_inserted (poll k) filename = true := by
    unfold wait_iso_downloaded
    rw [wait_iso_loop_success_iff poll sizes expected filename 359 0]
    constructor
    · rintro ⟨j, _, h2, h3⟩
      exact ⟨j, by omega, h3⟩
    · rintro ⟨j, h1, h3⟩
      exact ⟨j, Nat.zero_le j, by omega, h3⟩
  refine ⟨hsucc, ?_, ?_⟩
  · intro ht k hk
    cases hv : virtual_media_is_inserted (poll k) filename with
    | false => rfl
    | true =>
      exfalso
      have hs := hsucc.mpr ⟨k, hk, hv⟩
      rw [ht] at hs
      cases hs
  · intro hall
    cases hres : (wait_iso_downloaded poll sizes expected filename).2 with
    | success =>
      exfalso
      rcases hsucc.mp hres with ⟨k, hk, hins⟩
      rw [hall k hk] at hins
      cases hins
    | timeout => rfl

/-- Counterexample to claim C1 as stated: a run in which every poll sees
the local file already at its full expected size but the Inserted flag
still false times out, and a run in which the first poll reports
Inserted with a matching name while the file size is nowhere near the
expected size succeeds immediately, so success is not decided by
file-size convergence. -/
theorem wait_iso_downloaded_size_convergence_refuted :
    (wait_iso_downloaded
      (fun _ => { Inserted := some (JVal.jbool false), ImageName := some (JVal.jstr "acc-os.iso") })
      (fun _ => some 1000) 1000 "acc-os.iso").2 = WaitResult.timeout ∧
    (wait_iso_downloaded
      (fun _ => { Inserted := some (JVal.jbool true), ImageName := some (JVal.jstr "acc-os.iso") })
      (fun _ => some 0) 1000 "acc-os.iso").2 = WaitResult.success := by
  refine ⟨?_, by rfl⟩
  cases hres : (wait_iso_downloaded
      (fun _ => { Inserted := some (JVal.jbool false), ImageName := some (JVal.jstr "acc-os.iso") })
      (fun _ => some 1000) 1000 "acc-os.iso").2 with
  | timeout => rfl
  | success =>
    exfalso
    have h := (wait_iso_loop_success_iff
      (fun _ => { Inserted := some (JVal.jbool false), ImageName := some (JVal.jstr "acc-os.iso") })
      (fun _ => some 1000) 1000 "acc-os.iso" 359 0).mp hres
    rcases h with ⟨j, _, _, h3⟩
    exact Bool.noConfusion h3
